import Mathlib

/-!
Shallow embedding of the bypasshub quota engine
(`bypasshub/managers/users.py`) and shutdown coordinator
(`bypasshub/cleanup.py`).

Modelling conventions:
* SQLite rows become Lean structures; nullable columns are `Option`;
  the non-null integer columns (`plan_traffic_usage`,
  `plan_extra_traffic`, `plan_extra_traffic_usage`, traffic totals)
  are `Int`.
* Timestamps are UNIX epoch seconds (`Int`); `set_plan` already
  truncates `start_date` to whole seconds, so the embedding takes the
  normalized epoch-second value directly and leaves ISO-8601 parsing
  and timezone conversion outside the model.
* Fallible methods return `Except UsersError α`.  Every mutating
  method performs its writes inside `with self._database` (a
  transaction that commits on success and rolls back on any
  exception), so an `Except.error` result models a rollback: the
  caller's database state is unchanged.
* Python `ValueError` is modelled by `UsersError.InvalidArgument`
  (the message strings are elided).
* Python's `\w` is modelled over ASCII: letters, digits and the
  underscore.
-/

/-- The typed failures raised by `managers/users.py`
(`bypasshub/errors.py` taxonomy). -/
inductive UsersError where
  | InvalidUsername (username : String)
  | InvalidArgument
  | UserExist (username : String)
  | UserNotExist (username : String)
  | UsersCapacity
  | ActiveUsersCapacity
  | UUIDOverlap
  | DuplicatedPlanId (id : Option Int)
  | NoTrafficLimit (username : String)
  deriving DecidableEq

deriving instance DecidableEq for Except

def USERNAME_MIN_LENGTH : Nat := 1

def USERNAME_MAX_LENGTH : Nat := 64

/-- ASCII model of the Python regex class `\w`:
letters and numbers plus underscore. -/
def isWordChar (c : Char) : Bool :=
  c.isAlphanum || c == '_'

/-- The continuation of a `\w+$` match after the first character:
the remaining characters must all be word characters, except that the
very last character may instead be a single newline (Python's `$`
matches at the end of the string or just before a newline at the end
of the string). -/
def word_run_tail : List Char → Bool
  | [] => true
  | [c] => isWordChar c || c == '\n'
  | c :: rest => isWordChar c && word_run_tail rest

/-- Model of `re.match(username_pattern, s)` for
`username_pattern = compile(r"\w+$")`: a non-empty run of word
characters spanning the whole string, optionally followed by one
trailing newline (the `$` anchor's before-trailing-newline rule). -/
def username_pattern_match : List Char → Bool
  | [] => false
  | c :: rest => isWordChar c && word_run_tail rest

/-- The length-and-pattern test of `Users.validate_username`:
`USERNAME_MIN_LENGTH <= len(username) <= USERNAME_MAX_LENGTH` and
`username_pattern.match(username)`. -/
def username_ok (l : List Char) : Bool :=
  (decide (USERNAME_MIN_LENGTH ≤ l.length) && decide (l.length ≤ USERNAME_MAX_LENGTH))
    && username_pattern_match l

/-- Model of `Users.validate_username`: raises `InvalidUsernameError` when the
length check or the pattern match fails, otherwise returns
`username.lower()` (ASCII lowercasing). -/
def validate_username (username : String) : Except UsersError String :=
  if username_ok username.data then
    .ok (String.mk (username.data.map Char.toLower))
  else
    .error (.InvalidUsername username)

/-- The plan columns of one row of the `users` table
(`Users.get_plan` projection). -/
structure Plan where
  plan_start_date : Option Int
  plan_duration : Option Int
  plan_traffic : Option Int
  plan_traffic_usage : Int
  plan_extra_traffic : Int
  plan_extra_traffic_usage : Int
  deriving DecidableEq

/-- Model of `Users._is_unlimited_time_plan`. -/
def is_unlimited_time_plan (plan : Plan) : Bool :=
  plan.plan_start_date.isNone || plan.plan_duration.isNone

/-- Model of `Users._is_unlimited_traffic_plan`. -/
def is_unlimited_traffic_plan (plan : Plan) : Bool :=
  plan.plan_traffic.isNone

/-- The plan due date `plan_start_date + timedelta(seconds=plan_duration)`
computed by `Users.has_active_plan`; only reached when both fields are
non-null (the `getD 0` defaults are dead because the unlimited-time
disjunct already short-circuits). -/
def plan_due_date (plan : Plan) : Int :=
  plan.plan_start_date.getD 0 + plan.plan_duration.getD 0

/-- Model of `Users.has_active_plan` on a fetched plan row, with `now` standing
for `current_time()`. -/
def has_active_plan (now : Int) (plan : Plan) : Bool :=
  let has_time := is_unlimited_time_plan plan || decide (now < plan_due_date plan)
  let has_traffic := is_unlimited_traffic_plan plan
    || decide (plan.plan_traffic_usage < plan.plan_traffic.getD 0)
    || decide (plan.plan_extra_traffic_usage < plan.plan_extra_traffic)
  has_time && has_traffic

/-- One row of the `users` table. -/
structure UserRow where
  username : String
  uuid : String
  user_creation_date : Int
  plan : Plan
  total_upload : Int
  total_download : Int
  deriving DecidableEq

/-- One row of the `history` table: the columns a plan mutation
writes; the columns untouched by that mutation stay NULL. -/
structure HistoryRow where
  id : Option Int
  date : Int
  username : String
  plan_start_date : Option Int := none
  plan_duration : Option Int := none
  plan_traffic : Option Int := none
  plan_extra_traffic : Option Int := none
  deriving DecidableEq

/-- The database state owned by the quota engine. -/
structure DB where
  users : List UserRow
  history : List HistoryRow
  deriving DecidableEq

/-- Model of `Users._is_exist`: `SELECT EXISTS(SELECT 1 FROM users WHERE username = ?)`. -/
def is_exist (db : DB) (username : String) : Bool :=
  db.users.any (fun u => u.username == username)

/-- Model of `Users.get_plan` (wrapped by the `_validate_username` decorator):
fetches the plan columns of the row, `UserNotExistError` when the row
is absent. -/
def get_plan (db : DB) (username0 : String) : Except UsersError Plan :=
  match validate_username username0 with
  | .error e => .error e
  | .ok username =>
    match db.users.find? (fun u => u.username == username) with
    | none => .error (.UserNotExist username)
    | some u => .ok u.plan

/-- Model of `Users.capacity`: `SELECT COUNT(*) FROM users`. -/
def capacity (db : DB) : Nat :=
  db.users.length

/-- Model of `Users.active_capacity`: counts the users whose plan is active.
The Python property evaluates `has_active_plan(username)`, which
fetches the row's plan through `get_plan`; stored usernames were
normalized at insertion, so the decorator's re-validation is the
identity and the count reads each row's plan. -/
def active_capacity (now : Int) (db : DB) : Nat :=
  db.users.countP (fun u => has_active_plan now u.plan)

/-- The `duration` argument of `set_plan`: Python `int | timedelta`.
A `timedelta` is converted with `int(duration.total_seconds())`; the
embedding carries that converted whole-second value. -/
inductive Duration where
  | int (n : Int)
  | timedelta (seconds : Int)
  deriving DecidableEq

/-- The duration validation and conversion step of `set_plan`: an
`int` must be positive (`ValueError` otherwise); a `timedelta` is
converted to whole seconds with no positivity check, because in the
source the check is keyed on `type(duration) is int` and runs before
the conversion. -/
def duration_to_int : Option Duration → Except UsersError (Option Int)
  | none => .ok none
  | some (.int n) => if n ≤ 0 then .error .InvalidArgument else .ok (some n)
  | some (.timedelta s) => .ok (some s)

/-- The traffic validation step of `set_plan`, computing the
`preserve_traffic_usage` SQL parameter: with `traffic` given it must
be positive, and the parameter becomes NULL (keep the recorded usage)
when `preserve_traffic_usage` is truthy and 0 otherwise; with
`traffic` omitted the parameter is 0. -/
def traffic_check : Option Int → Bool → Except UsersError (Option Int)
  | some t, preserve =>
    if t ≤ 0 then .error .InvalidArgument
    else .ok (if preserve then none else some 0)
  | none, _ => .ok (some 0)

/-- The `INSERT INTO history` step shared by `set_plan` and
`set_plan_extra_traffic`: the UNIQUE constraint on `id` rejects a
duplicate non-NULL id with `DuplicatedPlanIDError`, aborting the
enclosing transaction; NULL ids never collide. -/
def history_insert (db : DB) (row : HistoryRow) : Except UsersError DB :=
  if row.id.isSome && db.history.any (fun h => h.id == row.id) then
    .error (.DuplicatedPlanId row.id)
  else
    .ok { db with history := db.history ++ [row] }

/-- The `UPDATE users` statement of `set_plan`:
`plan_traffic_usage = IFNULL(?, plan_traffic_usage)` with the
`preserve` parameter, and the unused extra traffic is flattened with
`plan_extra_traffic = MAX(plan_extra_traffic - plan_extra_traffic_usage, 0)`
and `plan_extra_traffic_usage = 0`. -/
def update_plan_row (users : List UserRow) (username : String)
    (start_date plan_duration traffic : Option Int) (preserve : Option Int) :
    List UserRow :=
  users.map fun u =>
    if u.username == username then
      { u with plan :=
        { plan_start_date := start_date
          plan_duration := plan_duration
          plan_traffic := traffic
          plan_traffic_usage := preserve.getD u.plan.plan_traffic_usage
          plan_extra_traffic := max (u.plan.plan_extra_traffic - u.plan.plan_extra_traffic_usage) 0
          plan_extra_traffic_usage := 0 } }
    else u

/-- Model of `Users.set_plan`: validates the username (decorator), the
start-date/duration pairing, the duration and the traffic arguments,
checks the user exists, and then runs one transaction that inserts the
history row and updates the live plan row.  An `Except.error` result
models the transaction rollback: the caller's state is unchanged. -/
def set_plan (db : DB) (now : Int) (username0 : String) (id : Option Int)
    (start_date : Option Int) (duration : Option Duration)
    (traffic : Option Int) (preserve_traffic_usage : Bool) :
    Except UsersError DB :=
  match validate_username username0 with
  | .error e => .error e
  | .ok username =>
    if start_date.isSome && duration.isNone then .error .InvalidArgument
    else if start_date.isNone && duration.isSome then .error .InvalidArgument
    else
      match duration_to_int duration with
      | .error e => .error e
      | .ok durSeconds =>
        match traffic_check traffic preserve_traffic_usage with
        | .error e => .error e
        | .ok preserve =>
          if !is_exist db username then .error (.UserNotExist username)
          else
            match history_insert db
                { id := id, date := now, username := username,
                  plan_start_date := start_date, plan_duration := durSeconds,
                  plan_traffic := traffic } with
            | .error e => .error e
            | .ok db1 =>
              .ok { db1 with
                users := update_plan_row db1.users username start_date durSeconds traffic preserve }

/-- The extra-traffic validation step of `set_plan_extra_traffic`:
with `extra_traffic` given it must be positive (`ValueError`
otherwise), and the user's current plan must have a traffic limit
(`self._is_unlimited_traffic_plan(self.get_plan(username))` raises
`NoTrafficLimitError` otherwise; `get_plan` itself raises
`UserNotExistError` for an absent user). -/
def extra_traffic_check (db : DB) (username : String) :
    Option Int → Except UsersError Unit
  | none => .ok ()
  | some t =>
    if t ≤ 0 then .error .InvalidArgument
    else
      match get_plan db username with
      | .error e => .error e
      | .ok plan =>
        if is_unlimited_traffic_plan plan then .error (.NoTrafficLimit username)
        else .ok ()

/-- The `UPDATE users` statement of `set_plan_extra_traffic`:
`plan_extra_traffic = MAX(IFNULL(plan_extra_traffic + ? - plan_extra_traffic_usage, 0), 0)`
(the whole sum is NULL exactly when the bound parameter is NULL) and
`plan_extra_traffic_usage = 0`. -/
def update_extra_traffic_row (users : List UserRow) (username : String)
    (extra_traffic : Option Int) : List UserRow :=
  users.map fun u =>
    if u.username == username then
      { u with plan :=
        { u.plan with
          plan_extra_traffic :=
            max (match extra_traffic with
              | some t => u.plan.plan_extra_traffic + t - u.plan.plan_extra_traffic_usage
              | none => 0) 0
          plan_extra_traffic_usage := 0 } }
    else u

/-- Model of `Users.set_plan_extra_traffic`: validates the username
(decorator) and the extra-traffic argument, checks the user exists,
and then runs one transaction that inserts the history row and
updates the extra-traffic columns.  An `Except.error` result models
the transaction rollback: the caller's state is unchanged. -/
def set_plan_extra_traffic (db : DB) (now : Int) (username0 : String)
    (id : Option Int) (extra_traffic : Option Int) : Except UsersError DB :=
  match validate_username username0 with
  | .error e => .error e
  | .ok username =>
    match extra_traffic_check db username extra_traffic with
    | .error e => .error e
    | .ok _ =>
      if !is_exist db username then .error (.UserNotExist username)
      else
        match history_insert db
            { id := id, date := now, username := username,
              plan_extra_traffic := extra_traffic } with
        | .error e => .error e
        | .ok db1 =>
          .ok { db1 with
            users := update_extra_traffic_row db1.users username extra_traffic }

/-- Model of `Credentials` (`type.py`): the pair returned by `add_user`. -/
structure Credentials where
  username : String
  uuid : String
  deriving DecidableEq

/-- The configuration inputs read by `add_user`: `max_users` and
`max_active_users` (0 disables the corresponding cap). -/
structure Config where
  max_users : Int
  max_active_users : Int
  deriving DecidableEq

/-- The plan columns of a freshly inserted user: the nullable plan
fields default to NULL and the usage counters to 0. -/
def fresh_plan : Plan :=
  { plan_start_date := none, plan_duration := none, plan_traffic := none,
    plan_traffic_usage := 0, plan_extra_traffic := 0, plan_extra_traffic_usage := 0 }

/-- The `INSERT INTO users` retry loop of `add_user`; `uuids` models
the successive `str(uuid4())` draws.  A primary-key collision means
the username already exists (`UserExistError`); a UUID
unique-constraint collision retries with the next draw, and
exhausting the draws raises `UUIDOverlapError`. -/
def add_user_insert (db : DB) (now : Int) (username : String) :
    List String → Except UsersError (Credentials × DB)
  | [] => .error .UUIDOverlap
  | uuid :: rest =>
    if db.users.any (fun u => u.username == username) then
      .error (.UserExist username)
    else if db.users.any (fun u => u.uuid == uuid) then
      add_user_insert db now username rest
    else
      .ok ({ username := username, uuid := uuid },
        { db with users := db.users ++
          [{ username := username, uuid := uuid, user_creation_date := now,
             plan := fresh_plan, total_upload := 0, total_download := 0 }] })

/-- Model of `Users.add_user`: the capacity pre-checks run first
(`max_users > 0 and capacity >= max_users`, then
`max_active_users > 0 and active_capacity >= max_active_users`),
and only then the insert attempt that can detect an existing
username.  The loop makes three draws (`range(3)`). -/
def add_user (cfg : Config) (db : DB) (now : Int) (username0 : String)
    (uuids : List String) : Except UsersError (Credentials × DB) :=
  match validate_username username0 with
  | .error e => .error e
  | .ok username =>
    if 0 < cfg.max_users ∧ cfg.max_users ≤ (capacity db : Int) then
      .error .UsersCapacity
    else if 0 < cfg.max_active_users ∧ cfg.max_active_users ≤ (active_capacity now db : Int) then
      .error .ActiveUsersCapacity
    else
      add_user_insert db now username (uuids.take 3)

/-- Filesystem operations performed by `Users.generate_list`, in
order.  `write_file` is `Path.write_text` (a whole-file write);
`open_truncate` is `open(path, "w")`, which truncates the named file
in place; `write_stream` is the `copyfileobj` copy of the in-memory
buffer into that opened file.  `replace` (an atomic rename of a
scratch file over the destination) is in the vocabulary for
comparison with the spec, but the code never performs it. -/
inductive FsEvent where
  | write_file (path : String) (content : String)
  | open_truncate (path : String)
  | write_stream (path : String) (lines : List String)
  | replace (srcPath dstPath : String)
  deriving DecidableEq

/-- The `StringIO` buffer built by the scan loop of
`Users.generate_list`, kept at line granularity: one
`"<username> <uuid>\n"` line appended for every user whose plan is
active. -/
def snapshot_buffer (now : Int) (users : List UserRow) : List String :=
  users.foldl
    (fun acc u =>
      if has_active_plan now u.plan then acc ++ [u.username ++ " " ++ u.uuid ++ "\n"]
      else acc)
    []

/-- Model of `Users.generate_list` as its ordered trace of filesystem
operations: the `last-generate` sentinel is written empty before the
scan, the scan fills the in-memory buffer, the `users` file is opened
for truncating write and receives the buffer, and the sentinel
finally receives the completion timestamp `int(time.time())`
(`ts`). -/
def generate_list (now ts : Int) (db : DB) : List FsEvent :=
  [ .write_file "last-generate" "",
    .open_truncate "users",
    .write_stream "users" (snapshot_buffer now db.users),
    .write_file "last-generate" (toString ts) ]

/-- Following the spec's words, for comparison with the code: the
snapshot would be "published by an atomic swap into place" if the
trace renamed a scratch file over the `users` file and never opened
the published file for in-place truncating write. -/
def publishes_by_atomic_swap (events : List FsEvent) : Bool :=
  (events.any fun e =>
    match e with
    | .replace _ dst => dst == "users"
    | _ => false) &&
  (events.all fun e =>
    match e with
    | .open_truncate p => !(p == "users")
    | _ => true)

/-- The two termination signals handled by `Cleanup._listen`. -/
inductive Signal where
  | SIGINT
  | SIGTERM
  deriving DecidableEq

/-- The numeric value of a signal, which `sys.exit(signal)` uses as
the process exit status. -/
def Signal.toInt : Signal → Int
  | .SIGINT => 2
  | .SIGTERM => 15

/-- Whether a cleanup callback run finished without raising. -/
def callback_ok : Except Unit Unit → Bool
  | .ok _ => true
  | .error _ => false

/-- The sequential run of the blocking callbacks in
`Cleanup._handler`: the first raised exception propagates and the
remaining callbacks do not run. -/
def run_sequential : List (Except Unit Unit) → Except Unit Unit
  | [] => .ok ()
  | .error e :: _ => .error e
  | .ok _ :: rest => run_sequential rest

/-- Model of `await asyncio.gather(...)` with the default
`return_exceptions=False`: the await returns normally only when every
task succeeds; otherwise the first raised exception is propagated to
the awaiting handler (the remaining tasks keep running but are no
longer awaited by the handler). -/
def gather_all (results : List (Except Unit Unit)) : Except Unit Unit :=
  if results.all callback_ok then .ok () else .error ()

/-- How one `Cleanup._handler` invocation ended: a `sys.exit` with
the given status, or an exception escaping the handler. -/
inductive CleanupOutcome where
  | exited (status : Int)
  | raised
  deriving DecidableEq

/-- The observable result of one `Cleanup._handler` invocation:
the `_is_cleaning` tri-state after it (`none` = Idle, `some true` =
Draining, `some false` = Drained), the outcome, and whether the
pending-tasks-cancelled warning was logged. -/
structure HandlerResult where
  is_cleaning : Option Bool
  outcome : CleanupOutcome
  warned_cancelled : Bool
  deriving DecidableEq

/-- Model of `Cleanup._handler` invoked with the current `_is_cleaning` state
and the run results of the registered blocking (`callbacks`) and
non-blocking (`async_callbacks`) tasks.  First signal
(`_is_cleaning is None`): mark draining, run the blocking callbacks
sequentially, then await the gather of the non-blocking ones — there
is no try/except, so a callback's exception escapes the handler
before `_is_cleaning = False` and `sys.exit(0)` are reached.  Later
signal: warn that the pending tasks are cancelled unless
`_is_cleaning is False`, and exit with the signal's numeric value. -/
def cleanup_handler (is_cleaning : Option Bool) (signal : Signal)
    (callbacks async_callbacks : List (Except Unit Unit)) : HandlerResult :=
  match is_cleaning with
  | none =>
    match run_sequential callbacks with
    | .error _ => { is_cleaning := some true, outcome := .raised, warned_cancelled := false }
    | .ok _ =>
      match gather_all async_callbacks with
      | .error _ => { is_cleaning := some true, outcome := .raised, warned_cancelled := false }
      | .ok _ => { is_cleaning := some false, outcome := .exited 0, warned_cancelled := false }
  | some b =>
    { is_cleaning := some b, outcome := .exited signal.toInt, warned_cancelled := b }

/-- A concrete user row shared by the concrete-input theorems. -/
def example_user : UserRow :=
  { username := "alice", uuid := "uuid-alice", user_creation_date := 0,
    plan := fresh_plan, total_upload := 0, total_download := 0 }

/-- A concrete one-user database shared by the concrete-input
theorems. -/
def example_db : DB :=
  { users := [example_user], history := [] }

/-- The database produced by running `set_plan` with history id 7 and
no plan arguments on `example_db`. -/
def example_db_after_plan7 : DB :=
  { users := [example_user],
    history := [{ id := some 7, date := 0, username := "alice" }] }

/-- A concrete user row with a partially consumed capped plan. -/
def example_user_capped : UserRow :=
  { username := "alice", uuid := "uuid-alice", user_creation_date := 0,
    plan := { plan_start_date := some 0, plan_duration := some 3600,
              plan_traffic := some 1000, plan_traffic_usage := 300,
              plan_extra_traffic := 50, plan_extra_traffic_usage := 20 },
    total_upload := 0, total_download := 0 }

/-- A concrete database holding the capped-plan user. -/
def example_db_capped : DB :=
  { users := [example_user_capped], history := [] }

/-- The database produced by the concrete `set_plan` run of the
`set_plan` postcondition witness: start 10, duration 3600, traffic
2000 with the recorded usage preserved, unused extra traffic
flattened to `max (50 - 20) 0 = 30`. -/
def example_db_capped_after : DB :=
  { users := [{ example_user_capped with plan :=
      { plan_start_date := some 10, plan_duration := some 3600,
        plan_traffic := some 2000, plan_traffic_usage := 300,
        plan_extra_traffic := 30, plan_extra_traffic_usage := 0 } }],
    history := [{ id := none, date := 5, username := "alice",
                  plan_start_date := some 10, plan_duration := some 3600,
                  plan_traffic := some 2000 }] }

/-- C1: `has_active_plan` returns true iff (the plan has unlimited
time, i.e. start date or duration is null, or the current time is
strictly before start + duration) and (the plan has unlimited traffic,
i.e. `plan_traffic` is null, or `plan_traffic_usage < plan_traffic`,
or `plan_extra_traffic_usage < plan_extra_traffic`). -/
theorem has_active_plan_iff_two_dimension_invariant (now : Int) (plan : Plan) :
    has_active_plan now plan = true ↔
      ((plan.plan_start_date = none ∨ plan.plan_duration = none ∨
          ∃ s d, plan.plan_start_date = some s ∧ plan.plan_duration = some d ∧ now < s + d) ∧
        (plan.plan_traffic = none ∨
          (∃ t, plan.plan_traffic = some t ∧ plan.plan_traffic_usage < t) ∨
          plan.plan_extra_traffic_usage < plan.plan_extra_traffic)) := by
  obtain ⟨sd, du, tr, tu, et, eu⟩ := plan
  cases sd <;> cases du <;> cases tr <;>
    simp [has_active_plan, is_unlimited_time_plan, is_unlimited_traffic_plan,
      plan_due_date]

/-- C2 (code evaluated at the failing input): the username
`"abc\n"` contains a newline, yet `validate_username` accepts it and
returns it unchanged, because Python's `$` anchor in the pattern
`\w+$` also matches just before a trailing newline.  The claim (and
the function's own docstring) say any string containing a non-word
character such as a newline fails `InvalidUsername`. -/
theorem validate_username_accepts_trailing_newline :
    validate_username "abc\n" = Except.ok "abc\n" := by
  rfl

/-- A successful `set_plan` call leaves a history row carrying the
call's id in the resulting database (the transaction committed both
the insert and the update). -/
theorem set_plan_ok_history_mem {db db1 : DB} {now : Int} {u : String}
    {id : Option Int} {sd : Option Int} {d : Option Duration}
    {t : Option Int} {p : Bool}
    (h : set_plan db now u id sd d t p = .ok db1) :
    ∃ r, r ∈ db1.history ∧ r.id = id := by
  unfold set_plan history_insert at h
  repeat' split at h
  any_goals exact Except.noConfusion h
  rename_i heq
  split at heq
  · exact Except.noConfusion heq
  · obtain rfl := Except.ok.inj heq
    obtain rfl := Except.ok.inj h
    exact ⟨_, List.mem_append_right _ (List.mem_singleton_self _), rfl⟩

/-- C3: a second `set_plan` call carrying the same history id as an
earlier successful call fails `DuplicatedPlanId` once its own
pre-transaction validation passes.  The history insert and the plan
update share one transaction, so the error result models the
rollback: no part of the second call's update is applied and the
caller's state stays exactly as the first call left it. -/
theorem set_plan_duplicate_id_second_call_fails
    (db db1 : DB) (now1 now2 : Int) (u1 u2 u2n : String) (i : Int)
    (sd1 sd2 : Option Int) (d1 d2 : Option Duration) (t1 t2 : Option Int)
    (p1 p2 : Bool)
    (h1 : set_plan db now1 u1 (some i) sd1 d1 t1 p1 = .ok db1)
    (hv : validate_username u2 = .ok u2n)
    (hpair : sd2.isSome = d2.isSome)
    (hdur : ∃ ds, duration_to_int d2 = .ok ds)
    (htr : ∃ pr, traffic_check t2 p2 = .ok pr)
    (hex : is_exist db1 u2n = true) :
    set_plan db1 now2 u2 (some i) sd2 d2 t2 p2 =
      .error (.DuplicatedPlanId (some i)) := by
  obtain ⟨ds, hds⟩ := hdur
  obtain ⟨pr, hpr⟩ := htr
  obtain ⟨r, hmem, hid⟩ := set_plan_ok_history_mem h1
  have hany : (db1.history.any fun h => h.id == some i) = true :=
    List.any_eq_true.mpr ⟨r, hmem, by simp [hid]⟩
  have h2 : (sd2.isSome && d2.isNone) = false := by
    rw [hpair]; cases d2 <;> simp
  have h3 : (sd2.isNone && d2.isSome) = false := by
    cases sd2 <;> cases d2 <;> simp_all
  unfold set_plan history_insert
  rw [hv]
  simp only [h2, h3, Bool.false_eq_true, if_false, hds, hpr, hex, Bool.not_true,
    Option.isSome_some, hany, Bool.and_self, if_true]

/-- C4: a successful `set_plan` leaves the target row with the given
start date, duration and traffic cap; the recorded traffic usage is
preserved exactly when `traffic` is given and `preserve_traffic_usage`
is true, and reset to zero otherwise; the unused extra traffic is
carried over as `max (plan_extra_traffic - plan_extra_traffic_usage) 0`
with its usage zeroed.  All other rows are untouched. -/
theorem set_plan_success_updates_plan_row
    (db db1 : DB) (now : Int) (u un : String) (id : Option Int)
    (sd : Option Int) (d : Option Duration) (t : Option Int) (p : Bool)
    (hok : set_plan db now u id sd d t p = .ok db1)
    (hv : validate_username u = .ok un) :
    ∃ ds, duration_to_int d = .ok ds ∧
      db1.users = db.users.map (fun r =>
        if r.username == un then
          { r with plan :=
            { plan_start_date := sd
              plan_duration := ds
              plan_traffic := t
              plan_traffic_usage := if t.isSome && p then r.plan.plan_traffic_usage else 0
              plan_extra_traffic := max (r.plan.plan_extra_traffic - r.plan.plan_extra_traffic_usage) 0
              plan_extra_traffic_usage := 0 } }
        else r) := by
  unfold set_plan at hok
  rw [hv] at hok
  repeat' split at hok
  any_goals exact Except.noConfusion hok
  rename_i x0 username hvun hp1 hp2 x1 ds hds x2 pr hpr hxe x3 db2 hins
  obtain rfl := Except.ok.inj hvun
  unfold history_insert at hins
  split at hins
  · exact Except.noConfusion hins
  obtain rfl := Except.ok.inj hins
  obtain rfl := Except.ok.inj hok
  refine ⟨ds, hds, ?_⟩
  show update_plan_row db.users un sd ds t pr = _
  unfold update_plan_row
  congr 1
  funext r
  by_cases hr : (r.username == un) = true
  · simp only [hr, if_true]
    cases t with
    | none =>
      simp only [traffic_check] at hpr
      obtain rfl := Except.ok.inj hpr
      simp
    | some t0 =>
      simp only [traffic_check] at hpr
      split at hpr
      · exact Except.noConfusion hpr
      · obtain rfl := Except.ok.inj hpr
        cases p <;> simp
  · simp [hr]

/-- C5: `set_plan_extra_traffic` rejects a non-positive
`extra_traffic` with the `ValueError` (`InvalidArgument`); rejects a
positive `extra_traffic` with `NoTrafficLimit` when the user's
current plan has no primary traffic cap; and on success sets the
extra cap to `max (previous cap + extra_traffic - previous usage) 0`
— to zero when `extra_traffic` is omitted — and resets the extra
usage to zero.  `u` ranges over normalized usernames (fixed points of
`validate_username`). -/
theorem set_plan_extra_traffic_spec
    (db : DB) (now : Int) (u : String) (id : Option Int)
    (hself : validate_username u = .ok u) :
    (∀ t : Int, t ≤ 0 →
      set_plan_extra_traffic db now u id (some t) = .error .InvalidArgument) ∧
    (∀ (t : Int) (plan : Plan), 0 < t → get_plan db u = .ok plan →
      plan.plan_traffic = none →
      set_plan_extra_traffic db now u id (some t) = .error (.NoTrafficLimit u)) ∧
    (∀ extra db1, set_plan_extra_traffic db now u id extra = .ok db1 →
      db1.users = db.users.map (fun r =>
        if r.username == u then
          { r with plan :=
            { r.plan with
              plan_extra_traffic :=
                match extra with
                | some t =>
                  max (r.plan.plan_extra_traffic + t - r.plan.plan_extra_traffic_usage) 0
                | none => 0
              plan_extra_traffic_usage := 0 } }
        else r)) := by
  refine ⟨?_, ?_, ?_⟩
  · intro t ht
    unfold set_plan_extra_traffic
    simp only [hself, extra_traffic_check, if_pos ht]
  · intro t plan h0 hget hnone
    have hc : extra_traffic_check db u (some t) = .error (.NoTrafficLimit u) := by
      simp only [extra_traffic_check, if_neg (by omega : ¬ t ≤ 0), hget,
        is_unlimited_traffic_plan, hnone, Option.isNone_none, if_true]
    unfold set_plan_extra_traffic
    simp only [hself, hc]
  · intro extra db1 hok
    unfold set_plan_extra_traffic at hok
    rw [hself] at hok
    repeat' split at hok
    any_goals exact Except.noConfusion hok
    rename_i x0 username hvun x1 a1 hchk hxe x2 db2 hins
    obtain rfl := Except.ok.inj hvun
    unfold history_insert at hins
    split at hins
    · exact Except.noConfusion hins
    obtain rfl := Except.ok.inj hins
    obtain rfl := Except.ok.inj hok
    show update_extra_traffic_row db.users u extra = _
    unfold update_extra_traffic_row
    congr 1
    funext r
    by_cases hr : (r.username == u) = true
    · cases extra <;> simp [hr]
    · simp [hr]

/-- C6 (the code evaluated at the failing input): the claim says a
non-positive duration fails `InvalidArgument` before any transaction,
whatever form the duration value takes; but `set_plan` checks
positivity only when `type(duration) is int` — a `timedelta` of -5
seconds is converted after that check, so the call succeeds, commits
the history row and sets `plan_duration` to -5. -/
theorem set_plan_negative_timedelta_duration_accepted :
    set_plan example_db 100 "alice" (some 1) (some 50)
        (some (Duration.timedelta (-5))) none false =
      .ok { users := [{ example_user with plan :=
              { plan_start_date := some 50, plan_duration := some (-5),
                plan_traffic := none, plan_traffic_usage := 0,
                plan_extra_traffic := 0, plan_extra_traffic_usage := 0 } }],
            history := [{ id := some 1, date := 100, username := "alice",
                          plan_start_date := some 50, plan_duration := some (-5),
                          plan_traffic := none }] } := by
  decide

/-- The sequential run of the blocking callbacks succeeds exactly
when every callback does; the first failure propagates. -/
theorem run_sequential_eq (l : List (Except Unit Unit)) :
    run_sequential l = if l.all callback_ok then .ok () else .error () := by
  induction l with
  | nil => rfl
  | cons r rest ih =>
    cases r with
    | error e => cases e; simp [run_sequential, callback_ok]
    | ok a => cases a; simp [run_sequential, callback_ok, ih]

/-- C7, counterexample at a concrete input: with one failing
non-blocking task, the first-signal drain neither reaches the Drained
state nor exits with status 0 — the `asyncio.gather` call runs with
the default `return_exceptions=False` and the handler has no
try/except, so the exception escapes before `_is_cleaning = False`
and `sys.exit(0)`.  This contradicts the claim that all tasks are
awaited regardless of failure, failures are logged rather than
re-raised, and the coordinator still reaches Drained and exits 0. -/
theorem cleanup_failing_async_task_aborts_drain :
    (cleanup_handler none Signal.SIGTERM [] [Except.error ()]).outcome ≠
        CleanupOutcome.exited 0 ∧
      (cleanup_handler none Signal.SIGTERM [] [Except.error ()]).is_cleaning ≠
        some false := by
  decide

/-- C7 amended: during a first-signal drain, if every registered task
succeeds the handler reaches Drained (`_is_cleaning = False`) and
exits with status 0; if any blocking or non-blocking task fails, the
exception propagates out of the handler — no exit is performed by the
handler, nothing is logged by it, and the state stays Draining. -/
theorem cleanup_drain_outcomes (sig : Signal)
    (cbs acbs : List (Except Unit Unit)) :
    (cbs.all callback_ok = true → acbs.all callback_ok = true →
      cleanup_handler none sig cbs acbs =
        { is_cleaning := some false, outcome := .exited 0, warned_cancelled := false }) ∧
    (cbs.all callback_ok = false ∨ acbs.all callback_ok = false →
      cleanup_handler none sig cbs acbs =
        { is_cleaning := some true, outcome := .raised, warned_cancelled := false }) := by
  constructor
  · intro hc ha
    simp [cleanup_handler, run_sequential_eq, gather_all, hc, ha]
  · intro h
    rcases h with hc | ha
    · simp [cleanup_handler, run_sequential_eq, hc]
    · cases hcb : cbs.all callback_ok <;>
        simp [cleanup_handler, run_sequential_eq, gather_all, hcb, ha]

/-- C8: a termination signal arriving when `_is_cleaning` is no
longer `None` exits immediately with the signal's numeric value as
the exit status, and the pending-tasks-cancelled warning is logged
iff the drain had not yet completed (`_is_cleaning` is `True`,
i.e. Draining rather than Drained — the tri-state distinguishes the
two). -/
theorem cleanup_second_signal_exit_and_warning (b : Bool) (sig : Signal)
    (cbs acbs : List (Except Unit Unit)) :
    (cleanup_handler (some b) sig cbs acbs).outcome = .exited sig.toInt ∧
      ((cleanup_handler (some b) sig cbs acbs).warned_cancelled = true ↔ b = true) := by
  simp [cleanup_handler]

/-- The scan buffer holds exactly one line per user with an active
plan, in table order. -/
theorem snapshot_buffer_eq_filterMap (now : Int) (users : List UserRow) :
    snapshot_buffer now users =
      users.filterMap (fun u =>
        if has_active_plan now u.plan then some (u.username ++ " " ++ u.uuid ++ "\n")
        else none) := by
  have h : ∀ (l : List UserRow) (acc : List String),
      l.foldl (fun acc u =>
          if has_active_plan now u.plan then acc ++ [u.username ++ " " ++ u.uuid ++ "\n"]
          else acc) acc
        = acc ++ l.filterMap (fun u =>
            if has_active_plan now u.plan then some (u.username ++ " " ++ u.uuid ++ "\n")
            else none) := by
    intro l
    induction l with
    | nil => intro acc; simp
    | cons v rest ih =>
      intro acc
      by_cases hv : has_active_plan now v.plan = true <;> simp [hv, ih]
  simpa [snapshot_buffer] using h users []

/-- C9 amended: `generate_list` first writes the `last-generate`
sentinel empty, accumulates the `"username uuid"` lines of exactly
the users with an active plan in an in-memory buffer during the scan,
then publishes by opening the snapshot file for in-place truncating
write and copying the buffer into it — not by an atomic swap, so a
concurrent reader can observe the truncated file between those two
steps — and writes the completion timestamp to the sentinel only
after the snapshot write. -/
theorem generate_list_trace_spec (now ts : Int) (db : DB) :
    generate_list now ts db =
      [ .write_file "last-generate" "",
        .open_truncate "users",
        .write_stream "users" (db.users.filterMap (fun u =>
          if has_active_plan now u.plan then some (u.username ++ " " ++ u.uuid ++ "\n")
          else none)),
        .write_file "last-generate" (toString ts) ] ∧
    publishes_by_atomic_swap (generate_list now ts db) = false := by
  refine ⟨?_, ?_⟩
  · simp [generate_list, snapshot_buffer_eq_filterMap]
  · rfl

/-- C9, counterexample at a concrete input: the claim says the
snapshot file is published by an atomic swap into place so a
concurrent reader never observes a partial generation; but the trace
of `generate_list` on a one-user database opens the published `users`
file for in-place truncating write and contains no atomic replace of
it. -/
theorem generate_list_no_atomic_swap :
    publishes_by_atomic_swap (generate_list 0 5 example_db) = false ∧
      FsEvent.open_truncate "users" ∈ generate_list 0 5 example_db := by
  decide

/-- C10: `add_user` evaluates the capacity pre-checks before the
insert: with a configured non-zero `max_users` cap already reached it
fails `UsersCapacity`; with the `max_active_users` cap reached (and
the total cap passing) it fails `ActiveUsersCapacity` — in both
cases even when the username already exists in the table — and
`UserExist` arises only at insert time, after both capacity checks
pass. -/
theorem add_user_capacity_checks_precede_user_exist
    (cfg : Config) (db : DB) (now : Int) (u un : String) (uuids : List String)
    (hv : validate_username u = .ok un) :
    (0 < cfg.max_users → cfg.max_users ≤ (capacity db : Int) →
      add_user cfg db now u uuids = .error .UsersCapacity) ∧
    (¬(0 < cfg.max_users ∧ cfg.max_users ≤ (capacity db : Int)) →
      0 < cfg.max_active_users → cfg.max_active_users ≤ (active_capacity now db : Int) →
      add_user cfg db now u uuids = .error .ActiveUsersCapacity) ∧
    (¬(0 < cfg.max_users ∧ cfg.max_users ≤ (capacity db : Int)) →
      ¬(0 < cfg.max_active_users ∧ cfg.max_active_users ≤ (active_capacity now db : Int)) →
      is_exist db un = true → uuids ≠ [] →
      add_user cfg db now u uuids = .error (.UserExist un)) := by
  refine ⟨?_, ?_, ?_⟩
  · intro h1 h2
    unfold add_user
    simp only [hv]
    rw [if_pos ⟨h1, h2⟩]
  · intro h1 h2 h3
    unfold add_user
    simp only [hv]
    rw [if_neg h1, if_pos ⟨h2, h3⟩]
  · intro h1 h2 hex hne
    unfold add_user
    simp only [hv]
    rw [if_neg h1, if_neg h2]
    cases uuids with
    | nil => exact absurd rfl hne
    | cons x rest =>
      have hex2 : (db.users.any fun v => v.username == un) = true := hex
      show add_user_insert db now un ((x :: rest).take 3) = _
      rw [show (x :: rest).take 3 = x :: rest.take 2 from rfl]
      unfold add_user_insert
      rw [hex2]
      rfl

/-- Witness for the duplicate-id theorem at a concrete input: a
first `set_plan` with history id 7 succeeds, and a second call
carrying id 7 fails `DuplicatedPlanId`. -/
theorem set_plan_duplicate_id_witness :
    set_plan example_db 0 "alice" (some 7) none none none false =
        .ok example_db_after_plan7 ∧
      set_plan example_db_after_plan7 1 "alice" (some 7) none none none false =
        .error (.DuplicatedPlanId (some 7)) :=
  ⟨by decide,
   set_plan_duplicate_id_second_call_fails example_db example_db_after_plan7 0 1
     "alice" "alice" "alice" 7 none none none none none none false false
     (by decide) (by decide) rfl ⟨none, rfl⟩ ⟨some 0, rfl⟩ (by decide)⟩

/-- Witness for the `set_plan` postcondition theorem at a concrete
input: traffic 2000 with `preserve_traffic_usage` keeps the recorded
usage 300 and flattens the extra traffic 50 - 20 to 30. -/
theorem set_plan_postcondition_witness :
    set_plan example_db_capped 5 "alice" none (some 10) (some (Duration.int 3600))
        (some 2000) true = .ok example_db_capped_after ∧
      validate_username "alice" = .ok "alice" ∧
      (∃ ds, duration_to_int (some (Duration.int 3600)) = .ok ds ∧
        example_db_capped_after.users = example_db_capped.users.map (fun r =>
          if r.username == "alice" then
            { r with plan :=
              { plan_start_date := some 10
                plan_duration := ds
                plan_traffic := some 2000
                plan_traffic_usage :=
                  if (some 2000 : Option Int).isSome && true then r.plan.plan_traffic_usage
                  else 0
                plan_extra_traffic :=
                  max (r.plan.plan_extra_traffic - r.plan.plan_extra_traffic_usage) 0
                plan_extra_traffic_usage := 0 } }
          else r)) :=
  ⟨by decide, rfl,
   set_plan_success_updates_plan_row example_db_capped example_db_capped_after 5
     "alice" "alice" none (some 10) (some (Duration.int 3600)) (some 2000) true
     (by decide) rfl⟩

/-- Witness for the extra-traffic theorem at a concrete input: the
`NoTrafficLimit` branch fires for a positive grant on a plan without
a primary traffic cap. -/
theorem set_plan_extra_traffic_witness :
    validate_username "alice" = .ok "alice" ∧
      (0 : Int) < 5 ∧
      get_plan example_db "alice" = .ok fresh_plan ∧
      fresh_plan.plan_traffic = none ∧
      set_plan_extra_traffic example_db 0 "alice" none (some 5) =
        .error (.NoTrafficLimit "alice") :=
  ⟨rfl, by decide, by decide, rfl,
   (set_plan_extra_traffic_spec example_db 0 "alice" none rfl).2.1 5 fresh_plan
     (by decide) (by decide) rfl⟩

/-- Witness for the drain-outcomes theorem at a concrete input: with
no registered tasks the drain completes, reaches Drained and exits
with status 0. -/
theorem cleanup_drain_witness :
    (([] : List (Except Unit Unit)).all callback_ok = true) ∧
      cleanup_handler none Signal.SIGINT [] [] =
        { is_cleaning := some false, outcome := .exited 0, warned_cancelled := false } :=
  ⟨rfl, (cleanup_drain_outcomes Signal.SIGINT [] []).1 rfl rfl⟩

/-- Witness for the capacity-precedence theorem at a concrete input:
with `max_users = 1` and one existing user, adding the very username
that already exists fails `UsersCapacity`, not `UserExist`. -/
theorem add_user_capacity_witness :
    validate_username "alice" = .ok "alice" ∧
      (0 : Int) < 1 ∧ (1 : Int) ≤ (capacity example_db : Int) ∧
      add_user { max_users := 1, max_active_users := 0 } example_db 0 "alice"
          ["uuid-new"] = .error .UsersCapacity :=
  ⟨rfl, by decide, by decide,
   (add_user_capacity_checks_precede_user_exist
      { max_users := 1, max_active_users := 0 } example_db 0 "alice" "alice"
      ["uuid-new"] rfl).1 (by decide) (by decide)⟩
